import Mathlib

/-
Verification development for the freebeeZ automation repository.

Each Python component relevant to the checked claims is shallowly embedded
as executable Lean definitions.  External effects (browser page operations,
network calls to solving services, OS randomness, computer-vision
primitives) are modelled by explicit environment parameters that enumerate
the possible outcomes of those effects; pure computation (scoring,
thresholds, control flow, record accumulation) is translated directly from
the source.  Confidence values, which the source writes as decimal float
literals (0.2, 0.3, 0.5, 0.8, 0.9, 1.0), are represented exactly as
natural numbers scaled by 100 (20, 30, 50, 80, 90, 100); every comparison
in the source is between such literals or their sums, so the scaling is
exact and lossless.
-/

/-! ## Shared text utilities (model of Python substring and search operations) -/

/-- Decides whether the first list is a prefix of the second
(model of Python startswith on the decoded character sequence). -/
def matchesAt : List Char → List Char → Bool
  | [], _ => true
  | _ :: _, [] => false
  | a :: as, b :: bs => a = b && matchesAt as bs

/-- Decides whether needle occurs as a contiguous substring of hay
(model of the Python infix test, needle in hay). -/
def lcontains (needle : List Char) : List Char → Bool
  | [] => matchesAt needle []
  | c :: rest => matchesAt needle (c :: rest) || lcontains needle rest

/-- Index of the first occurrence of needle in hay
(model of Python str.find, returning none for -1). -/
def indexOfL (needle : List Char) : List Char → Option Nat
  | [] => if matchesAt needle [] then some 0 else none
  | c :: rest =>
    if matchesAt needle (c :: rest) then some 0
    else (indexOfL needle rest).map (· + 1)

/-- Lowercases a character sequence (model of Python str.lower, ASCII part). -/
def lowerL (l : List Char) : List Char := l.map Char.toLower

/-- Apostrophe character, used inside hardcoded source strings. -/
def apos : Char := Char.ofNat 39

/-! ## Field-content semantics of fill actions

Model of the page-state effect of the element-level operations used by the
fill branches of the two automation scripts
(src/python_scripts/advanced_playwright_automation.py lines 130-136 and
src/backup/playwright_automation.py lines 128-133).  A form field is
modelled by its textual content. -/

namespace FillSemantics

/-- Playwright element.clear removes all existing content of the field. -/
def element_clear (_field : String) : String := ""

/-- Playwright fill replaces the field content with the given value. -/
def element_fill (v : String) (_field : String) : String := v

/-- Playwright type appends the typed value to the existing field content. -/
def page_type (v : String) (field : String) : String := field ++ v

/-- Fill branch of AdvancedPlaywrightAutomation.execute_action:
element.clear() followed by element.fill(value). -/
def advanced_fill (old v : String) : String := element_fill v (element_clear old)

/-- Fill branch of PlaywrightAutomator.execute_action:
page.fill(selector, empty string) followed by page.type(selector, value). -/
def backup_fill (old v : String) : String := page_type v (element_fill "" old)

end FillSemantics

/-! ## Obstacle detection as a read-only page inspection

Model of AdvancedPlaywrightAutomation.detect_captcha
(src/python_scripts/advanced_playwright_automation.py lines 240-257).
The page is modelled by which selectors currently match an element plus
mutable field contents; every page operation the method can issue is
recorded in a trace so that read-onlyness is a provable statement rather
than an assumption. -/

namespace Detect

/-- Operations a script can issue against the live page. -/
inductive PageOp
  | query_selector (sel : String)
  | click (sel : String)
  | fill (sel : String) (v : String)
deriving DecidableEq, Repr

/-- Classifies the page operations that cannot mutate page state. -/
def isReadOnly : PageOp → Bool
  | .query_selector _ => true
  | .click _ => false
  | .fill _ _ => false

/-- Abstract state of the live page: which selectors match, the contents of
fillable fields, and the set of selectors that received a click. -/
structure Page where
  present : String → Bool
  fields : String → String
  clicked : List String

/-- Effect of one page operation on the page state. -/
def applyOp : PageOp → Page → Page
  | .query_selector _, p => p
  | .click s, p => { p with clicked := s :: p.clicked }
  | .fill s v, p => { p with fields := fun t => if t = s then v else p.fields t }

/-- Effect of a sequence of page operations. -/
def applyOps (ops : List PageOp) (p : Page) : Page :=
  ops.foldl (fun q o => applyOp o q) p

/-- Selector list probed by detect_captcha, copied from the source. -/
def captcha_selectors : List String :=
  [".g-recaptcha", ".h-captcha", "#captcha", "[data-captcha]",
   "iframe[src*=\"recaptcha\"]", "iframe[src*=\"hcaptcha\"]"]

/-- Loop body of detect_captcha: probe each selector with query_selector and
return True at the first match, recording every issued page operation. -/
def detect_captcha_aux : List String → Page → Bool × List PageOp
  | [], _ => (false, [])
  | s :: rest, p =>
    if p.present s then (true, [.query_selector s])
    else
      let r := detect_captcha_aux rest p
      (r.1, .query_selector s :: r.2)

/-- Model of AdvancedPlaywrightAutomation.detect_captcha: returns the
classification together with the trace of page operations it issued. -/
def detect_captcha (p : Page) : Bool × List PageOp :=
  detect_captcha_aux captcha_selectors p

end Detect

/-! ## AICaptchaSolver (src/python_scripts/ai_captcha_solver.py)

Network calls to the paid solving services are modelled by an environment
that records whether each API key is configured and what answer, if any,
the remote service would produce; every adapter additionally reports how
many network requests it issued, so that the no-network-call part of the
configuration claims is provable.  Confidence values are scaled by 100. -/

namespace AICaptchaSolver

/-- Result dictionary shape shared by the solver methods of AICaptchaSolver. -/
structure SolveResult where
  success : Bool
  solution : String := ""
  confidence : Nat := 0
  method : String
  error : Option String := none
deriving DecidableEq, Repr

/-- Environment of AICaptchaSolver: configured keys and remote outcomes.
A some answer means the remote service eventually returns that solution;
none means it fails (submit error, timeout, or non-ready terminal status). -/
structure Env where
  twocaptcha_key : Bool
  anticaptcha_key : Bool
  twocaptchaAnswer : Option String
  anticaptchaAnswer : Option String
deriving DecidableEq, Repr

/-- Model of AICaptchaSolver.solve_with_2captcha: submits the captcha (one
network request at least) and polls for the answer.  The method performs no
key check of its own.  Second component counts network requests issued. -/
def solve_with_2captcha (env : Env) : SolveResult × Nat :=
  match env.twocaptchaAnswer with
  | some a => ({ success := true, solution := a, confidence := 90, method := "2captcha" }, 1)
  | none => ({ success := false, method := "2captcha_submit_failed" }, 1)

/-- Model of AICaptchaSolver.solve_with_anticaptcha, analogous. -/
def solve_with_anticaptcha (env : Env) : SolveResult × Nat :=
  match env.anticaptchaAnswer with
  | some a => ({ success := true, solution := a, confidence := 90, method := "anticaptcha" }, 1)
  | none => ({ success := false, method := "anticaptcha_submit_failed" }, 1)

/-- Placeholder result for a service branch that is never entered because
its guarding key test failed; its success flag is false so the surrounding
conditional ignores it. -/
def not_invoked : SolveResult := { success := false, method := "not_invoked" }

/-- Model of AICaptchaSolver.solve_recaptcha_v2 (source lines 217-244):
fail fast with the no_api_key shape when neither service key is configured;
otherwise try 2captcha first if configured, then anticaptcha if configured,
returning the external_service_failed shape when no attempt succeeds.
Second component counts network requests issued. -/
def solve_recaptcha_v2 (env : Env) : SolveResult × Nat :=
  if env.twocaptcha_key = false ∧ env.anticaptcha_key = false then
    ({ success := false, method := "no_api_key",
       error := some "No CAPTCHA solving API key configured" }, 0)
  else
    let r2 := if env.twocaptcha_key then solve_with_2captcha env else (not_invoked, 0)
    if env.twocaptcha_key ∧ r2.1.success then r2
    else
      let ra := if env.anticaptcha_key then solve_with_anticaptcha env else (not_invoked, 0)
      if env.anticaptcha_key ∧ ra.1.success then (ra.1, r2.2 + ra.2)
      else ({ success := false, method := "external_service_failed" }, r2.2 + ra.2)

/-- Grid structure report of AICaptchaSolver.detect_image_grid.  The grid
detection itself is OpenCV vision code (an external collaborator), so its
report is taken as an input of the image-selection solver. -/
structure GridInfo where
  detected : Bool
  rows : Nat
  cols : Nat
deriving DecidableEq, Repr

/-- Model of random.randint(lo, hi): consumes the head of the RNG stream. -/
def randint (lo hi : Nat) (rng : List Nat) : Nat :=
  lo + (rng.headD 0) % (hi + 1 - lo)

/-- Model of random.sample(range(pool), k) driven by the RNG stream: each
draw removes one remaining cell, so the selected cells are distinct. -/
def sampleAux : Nat → List Nat → List Nat → List Nat
  | 0, _, _ => []
  | k + 1, pool, rng =>
    let i := (rng.headD 0) % (max pool.length 1)
    pool.getD i 0 :: sampleAux k (pool.eraseIdx i) (rng.tail)

/-- Model of AICaptchaSolver.simulate_object_detection (source lines
394-407): randomly selects between 2 and min(4, total) grid cells.  The
source joins the selected cell indices with commas; the model keeps the
list of indices, the join being pure formatting. -/
def simulate_object_detection (g : GridInfo) (rng : List Nat) : List Nat :=
  let total := g.rows * g.cols
  let num := randint 2 (min 4 total) rng
  sampleAux num (List.range total) rng.tail

/-- Result shape of the image-selection solver; the solution is the list of
selected cell indices. -/
structure ImgSelResult where
  success : Bool
  solution : List Nat := []
  confidence : Nat := 0
  method : String
deriving DecidableEq, Repr

/-- Model of AICaptchaSolver.solve_image_selection (source lines 192-215):
when a grid is detected, return the simulated (randomly drawn) object
detection as a success with confidence 0.6; otherwise fail. -/
def solve_image_selection (g : GridInfo) (rng : List Nat) : ImgSelResult :=
  if g.detected then
    { success := true, solution := simulate_object_detection g rng,
      confidence := 60, method := "object_detection_simulation" }
  else { success := false, method := "grid_not_detected" }

end AICaptchaSolver

/-! ## IntelligentCaptchaSolver (src/python_scripts/intelligent_captcha_solver.py)

The cascade solve_captcha tries the AI-vision adapter, then the 2captcha
service, then the anticaptcha service, returning at the first success.  The
model returns alongside the result the ordered list of cascade candidates
actually invoked, and each adapter counts the network requests it issued. -/

namespace IntelligentCaptchaSolver

/-- Result dictionary shape of the IntelligentCaptchaSolver methods. -/
structure SolveResult where
  success : Bool
  answer : Option String := none
  confidence : Nat := 0
  method : Option String := none
  error : Option String := none
deriving DecidableEq, Repr

/-- Environment: which API keys are set in the process environment, and the
outcome each remote endpoint would produce (some answer = a successful
response carrying that answer, none = any failure path). -/
structure Env where
  openai_api_key : Bool
  anthropic_api_key : Bool
  twocaptcha_api_key : Bool
  anticaptcha_api_key : Bool
  openaiAnswer : Option String
  anthropicAnswer : Option String
  twocaptchaAnswer : Option String
  anticaptchaAnswer : Option String
deriving DecidableEq, Repr

/-- Model of IntelligentCaptchaSolver._solve_with_openai: immediate failure
without a request when the key is absent, otherwise one request whose
success carries confidence 0.8. -/
def solve_with_openai (env : Env) : SolveResult × Nat :=
  if env.openai_api_key = false then
    ({ success := false, error := some "OpenAI API key not available" }, 0)
  else
    match env.openaiAnswer with
    | some a => ({ success := true, answer := some a, confidence := 80,
                   method := some "openai_gpt4_vision" }, 1)
    | none => ({ success := false, error := some "OpenAI API error" }, 1)

/-- Model of IntelligentCaptchaSolver._solve_with_anthropic, analogous. -/
def solve_with_anthropic (env : Env) : SolveResult × Nat :=
  if env.anthropic_api_key = false then
    ({ success := false, error := some "Anthropic API key not available" }, 0)
  else
    match env.anthropicAnswer with
    | some a => ({ success := true, answer := some a, confidence := 80,
                   method := some "anthropic_claude_vision" }, 1)
    | none => ({ success := false, error := some "Anthropic API error" }, 1)

/-- Model of IntelligentCaptchaSolver.solve_with_ai_vision: routes on the
requested model name and on key availability. -/
def solve_with_ai_vision (env : Env) (ai_model : String) : SolveResult × Nat :=
  if matchesAt "gpt".data ai_model.data ∧ env.openai_api_key then
    solve_with_openai env
  else if matchesAt "claude".data ai_model.data ∧ env.anthropic_api_key then
    solve_with_anthropic env
  else ({ success := false, error := some "No suitable AI model available" }, 0)

/-- Model of IntelligentCaptchaSolver._solve_with_2captcha (source lines
277-332): immediate failure without a request when the key is absent,
otherwise submit and poll; success carries confidence 0.9. -/
def solve_with_2captcha (env : Env) : SolveResult × Nat :=
  if env.twocaptcha_api_key = false then
    ({ success := false, error := some "2captcha API key not available" }, 0)
  else
    match env.twocaptchaAnswer with
    | some a => ({ success := true, answer := some a, confidence := 90,
                   method := some "2captcha" }, 1)
    | none => ({ success := false, error := some "2captcha timeout" }, 1)

/-- Model of IntelligentCaptchaSolver._solve_with_anticaptcha, analogous. -/
def solve_with_anticaptcha (env : Env) : SolveResult × Nat :=
  if env.anticaptcha_api_key = false then
    ({ success := false, error := some "Anti-captcha API key not available" }, 0)
  else
    match env.anticaptchaAnswer with
    | some a => ({ success := true, answer := some a, confidence := 90,
                   method := some "anticaptcha" }, 1)
    | none => ({ success := false, error := some "Anti-captcha timeout" }, 1)

/-- Model of IntelligentCaptchaSolver.solve_with_service (source lines
263-275): dispatches to the named service only when its key is configured,
failing immediately (and without a request) otherwise. -/
def solve_with_service (env : Env) (service : String) : SolveResult × Nat :=
  if service = "2captcha" ∧ env.twocaptcha_api_key then
    solve_with_2captcha env
  else if service = "anticaptcha" ∧ env.anticaptcha_api_key then
    solve_with_anticaptcha env
  else ({ success := false, error := some ("Service " ++ service ++ " not available") }, 0)

/-- Model of IntelligentCaptchaSolver.solve_captcha (source lines 395-446):
the cascade tries AI vision, then 2captcha, then anticaptcha, returning at
the first success; when all candidates fail it returns the terminal failure
whose error text is the all-methods-failed message and whose recorded
attempts are the three candidates.  The second component is the ordered
list of candidates actually invoked. -/
def solve_captcha (env : Env) (ai_model : String) : SolveResult × List String :=
  let ai := (solve_with_ai_vision env ai_model).1
  if ai.success then (ai, ["ai_vision"])
  else
    let s2 := (solve_with_service env "2captcha").1
    if s2.success then (s2, ["ai_vision", "2captcha"])
    else
      let sa := (solve_with_service env "anticaptcha").1
      if sa.success then (sa, ["ai_vision", "2captcha", "anticaptcha"])
      else ({ success := false, error := some "All solving methods failed" },
            ["ai_vision", "2captcha", "anticaptcha"])

/-- Modelled from the spec: the per-kind acceptance threshold of the solver
cascade, 0.9 for the external paid services (2captcha, anticaptcha) and
0.5 for every other back end, scaled by 100.  The source has no explicit
threshold constant; this definition follows the words of the spec so that
the cascade acceptance behaviour can be compared against it. -/
def specAcceptThreshold (method : String) : Nat :=
  if method = "2captcha" ∨ method = "anticaptcha" then 90 else 50

/-- The results of the three cascade candidates in configured order. -/
def candidateResults (env : Env) (ai_model : String) : List SolveResult :=
  [(solve_with_ai_vision env ai_model).1,
   (solve_with_service env "2captcha").1,
   (solve_with_service env "anticaptcha").1]

end IntelligentCaptchaSolver

/-! ## CaptchaDetector (src/python_scripts/captcha_detector.py)

The text-based signal class of detect_from_screenshot matches a fixed
pattern dictionary against the recognised page text.  The source stubs the
OCR step with a hardcoded simulated text, so the text signal is a constant
of the program.  The visual and colour signal classes are OpenCV pipelines
over the screenshot (external collaborators); their boolean findings are
inputs of the model.  Confidence values are scaled by 100: each matching
pattern contributes 30 (0.3), a kind is reported when its aggregate
exceeds 20 (0.2), and the recorded score is capped at 100 (1.0). -/

namespace CaptchaDetector

/-- Pattern language covering the regular expressions of the source pattern
dictionary: a case-insensitive literal, two literals separated by a
dot-star gap, or the arithmetic-expression pattern. -/
inductive Pat
  | lit (s : List Char)
  | gap (a b : List Char)
  | mathExpr
deriving DecidableEq

/-- Decides whether a character starts an arithmetic operator of the math
captcha pattern. -/
def isMathOp (c : Char) : Bool := c = '+' || c = '-' || c = '*' || c = '/'

/-- Decides the math pattern (digits, optional spaces, operator, optional
spaces, digit) anchored at the head of the text. -/
def mathHere (l : List Char) : Bool :=
  match l with
  | c :: rest =>
    c.isDigit &&
      (let r1 := rest.dropWhile Char.isDigit
       let r2 := r1.dropWhile (· = ' ')
       match r2 with
       | op :: r3 =>
         isMathOp op &&
           (match r3.dropWhile (· = ' ') with
            | d :: _ => d.isDigit
            | [] => false)
       | [] => false)
  | [] => false

/-- Searches the math pattern anywhere in the text. -/
def mathSearch : List Char → Bool
  | [] => false
  | c :: rest => mathHere (c :: rest) || mathSearch rest

/-- Remainder of hay after the first occurrence of needle, when any. -/
def afterFirst (needle : List Char) : List Char → Option (List Char)
  | [] => if matchesAt needle [] then some [] else none
  | c :: rest =>
    if matchesAt needle (c :: rest) then some ((c :: rest).drop needle.length)
    else afterFirst needle rest

/-- Pattern semantics over the lowercased text: re.search with IGNORECASE. -/
def Pat.search (p : Pat) (text : List Char) : Bool :=
  let t := lowerL text
  match p with
  | .lit s => lcontains s t
  | .gap a b =>
    match afterFirst a t with
    | some rest => lcontains b rest
    | none => false
  | .mathExpr => mathSearch t

/-- The captcha_patterns dictionary of the source, in insertion order, with
literal patterns lowercased (matching is case-insensitive). -/
def captcha_patterns : List (String × List Pat) :=
  [("recaptcha",
     [.lit "recaptcha".data, .lit "g-recaptcha".data,
      .lit ("i".data ++ [apos] ++ "m not a robot".data), .lit "recaptcha".data]),
   ("hcaptcha",
     [.lit "hcaptcha".data, .lit "h-captcha".data,
      .lit "please complete the security check".data]),
   ("cloudflare",
     [.lit "cloudflare".data, .lit "cf-challenge".data,
      .lit "checking your browser".data, .lit "ddos protection".data]),
   ("image_captcha",
     [.lit "captcha".data, .lit "security code".data,
      .lit "verification code".data, .lit "enter the code".data]),
   ("math_captcha",
     [.mathExpr, .gap "solve".data "equation".data, .lit "calculate".data]),
   ("text_captcha",
     [.gap "type".data "letters".data, .gap "enter".data "text".data,
      .gap "what".data "see".data])]

/-- Number of patterns of the given list matching the text. -/
def countMatches (ps : List Pat) (text : List Char) : Nat :=
  ps.countP (fun p => p.search text)

/-- Kind loop of detect_text_based_captcha: for each kind, accumulate 0.3
per matching pattern and report the kind when the aggregate exceeds 0.2,
recording min(aggregate, 1.0) as its score.  Scaled by 100. -/
def textScanAux : List (String × List Pat) → List Char → List (String × Nat)
  | [], _ => []
  | (k, ps) :: rest, text =>
    let conf := 30 * countMatches ps text
    (if 20 < conf then [(k, min conf 100)] else []) ++ textScanAux rest text

/-- Result shape of detect_text_based_captcha. -/
structure TextResult where
  detected : Bool
  types : List String
  scores : List (String × Nat)
deriving DecidableEq, Repr

/-- Text scan of an arbitrary recognised text. -/
def detect_text_on (text : List Char) : TextResult :=
  let sc := textScanAux captcha_patterns text
  { detected := !sc.isEmpty, types := sc.map Prod.fst, scores := sc }

/-- Hardcoded simulated OCR text of the source (detect_text_based_captcha
assigns this constant instead of running OCR on the screenshot). -/
def simulated_text : List Char :=
  "I".data ++ [apos] ++ "m not a robot reCAPTCHA verification".data

/-- Model of CaptchaDetector.detect_text_based_captcha (source lines
122-155): the screenshot argument is ignored and the fixed simulated text
is scanned. -/
def detect_text_based_captcha : TextResult :=
  detect_text_on simulated_text

/-- Findings of the OpenCV visual and colour signal classes over the
screenshot, taken as inputs of the model (external vision collaborator):
whether checkbox-sized rectangles, grid patterns, distorted-text regions,
a green-pixel concentration above 1 percent, and a blue-pixel
concentration above 2 percent were found. -/
structure VisionSignals where
  rectangles : Bool
  grids : Bool
  textRegions : Bool
  greenOver : Bool
  blueOver : Bool
deriving DecidableEq, Repr

/-- Model of CaptchaDetector.detect_visual_captcha: the kinds appended by
its three element checks, in source order. -/
def detect_visual_captcha (v : VisionSignals) : List String :=
  (if v.rectangles then ["checkbox_captcha"] else []) ++
  (if v.grids then ["image_grid_captcha"] else []) ++
  (if v.textRegions then ["text_captcha"] else [])

/-- Model of CaptchaDetector.detect_color_patterns: the kinds appended by
its two colour checks, in source order. -/
def detect_color_patterns (v : VisionSignals) : List String :=
  (if v.greenOver then ["color_indicator_captcha"] else []) ++
  (if v.blueOver then ["button_captcha"] else [])

/-- Result shape of detect_from_screenshot (recommendations omitted). -/
structure DetectionResult where
  captcha_detected : Bool
  captcha_types : List String
  confidence_scores : List (String × Nat)
deriving DecidableEq, Repr

/-- Model of CaptchaDetector.detect_from_screenshot (source lines 69-120):
the text, visual and colour signal classes each extend the list of
detected kinds; the detected flag is set when any signal class reported
something.  No selection among the detected kinds takes place. -/
def detect_from_screenshot (v : VisionSignals) : DetectionResult :=
  let tr := detect_text_based_captcha
  let vis := detect_visual_captcha v
  let col := detect_color_patterns v
  { captcha_detected := tr.detected || !vis.isEmpty || !col.isEmpty,
    captcha_types := tr.types ++ vis ++ col,
    confidence_scores := tr.scores }

end CaptchaDetector

/-! ## EmailLinkExtractor (src/python_scripts/email_link_extractor.py)

extract_verification_links gathers candidate links with three extraction
methods (regex patterns, HTML anchors, plain-text URLs), deduplicates
them, scores each candidate with score_verification_link, keeps those
scoring strictly above 0.3, sorts them by descending confidence (Python
list.sort with reverse=True, a stable sort), and sets primary_link to the
first url of the sorted list.  The three extraction methods and the
deduplication are regular-expression and HTML-parsing plumbing over the
raw message; the model takes their combined output, the deduplicated
candidate list, as an input and embeds everything downstream of it.
Scores are scaled by 100. -/

namespace EmailLinkExtractor

/-- Splits a character list at the first occurrence of the separator,
returning the parts before and after it. -/
def splitFirstL (sep : List Char) : List Char → Option (List Char × List Char)
  | [] => if matchesAt sep [] then some ([], []) else none
  | c :: rest =>
    if matchesAt sep (c :: rest) then some ([], (c :: rest).drop sep.length)
    else
      match splitFirstL sep rest with
      | some (a, b) => some (c :: a, b)
      | none => none

/-- Characters terminating the network-location component of a URL. -/
def isNetlocEnd (c : Char) : Bool := c = '/' || c = '?' || c = '#'

/-- Network location of an absolute URL (model of urlparse(link).netloc for
the http and https links the extractor handles). -/
def urlNetloc (link : List Char) : List Char :=
  match splitFirstL "://".data link with
  | some (_, rest) => rest.takeWhile (fun c => !isNetlocEnd c)
  | none => []

/-- Path component of an absolute URL (model of urlparse(link).path). -/
def urlPath (link : List Char) : List Char :=
  match splitFirstL "://".data link with
  | some (_, rest) =>
    (rest.dropWhile (fun c => !isNetlocEnd c)).takeWhile (fun c => c ≠ '?' && c ≠ '#')
  | none => link.takeWhile (fun c => c ≠ '?' && c ≠ '#')

/-- Query component of a URL (model of urlparse(link).query). -/
def urlQuery (link : List Char) : List Char :=
  match splitFirstL ['?'] link with
  | some (_, rest) => rest.takeWhile (· ≠ '#')
  | none => []

/-- The common_domains list of the source. -/
def common_domains : List String :=
  ["protonmail.com", "proton.me", "tutanota.com", "mega.nz",
   "netlify.com", "vercel.com", "github.com", "railway.app",
   "planetscale.com", "supabase.com", "huggingface.co"]

/-- The verification_keywords list of the source. -/
def verification_keywords : List String :=
  ["verify", "confirm", "activate", "validation", "authenticate",
   "click here", "complete registration", "finish setup",
   "verify email", "confirm email", "activate account"]

/-- Model of EmailLinkExtractor.score_verification_link (source lines
210-266), scaled by 100: domain bonus 30; path bonus 40/35/30/20 for
verify/confirm/activate/auth; query bonus 30/25/20/25 for
token=/code=/key=/verify; context bonus 10 when a verification keyword
occurs within 100 characters of the link inside the message; length bonus
10 for links longer than 50 characters (the 15-point branch for length
above 100 is unreachable, mirroring the source elif); https bonus 5; the
total is capped at 100. -/
def score_verification_link (link content : List Char) : Nat :=
  let domain := lowerL (urlNetloc link)
  let s1 := if common_domains.any (fun d => lcontains d.data domain) then 30 else 0
  let path := lowerL (urlPath link)
  let s2 :=
    if lcontains "verify".data path then 40
    else if lcontains "confirm".data path then 35
    else if lcontains "activate".data path then 30
    else if lcontains "auth".data path then 20
    else 0
  let query := lowerL (urlQuery link)
  let s3 :=
    if lcontains "token=".data query then 30
    else if lcontains "code=".data query then 25
    else if lcontains "key=".data query then 20
    else if lcontains "verify".data query then 25
    else 0
  let contentLower := lowerL content
  let linkLower := lowerL link
  let s4 :=
    match indexOfL linkLower contentLower with
    | none => 0
    | some i =>
      let start := i - 100
      let stop := min contentLower.length (i + linkLower.length + 100)
      let ctx := (contentLower.drop start).take (stop - start)
      if verification_keywords.any (fun kw => lcontains kw.data ctx) then 10 else 0
  let s5 := if 50 < link.length then 10 else if 100 < link.length then 15 else 0
  let s6 := if matchesAt "https://".data link then 5 else 0
  min (s1 + s2 + s3 + s4 + s5 + s6) 100

/-- Model of EmailLinkExtractor.classify_link_type (source lines 268-283). -/
def classify_link_type (link : List Char) : String :=
  let l := lowerL link
  if lcontains "email".data l ∧ lcontains "verify".data l then "email_verification"
  else if lcontains "account".data l ∧
      (lcontains "activate".data l ∨ lcontains "confirm".data l) then "account_activation"
  else if lcontains "password".data l ∧ lcontains "reset".data l then "password_reset"
  else if lcontains "unsubscribe".data l then "unsubscribe"
  else if lcontains "token=".data l ∨ lcontains "code=".data l then "token_verification"
  else "generic_verification"

/-- One scored link entry of the result (the parameters field of the
source entry, a further urlparse projection, is omitted). -/
structure LinkEntry where
  url : List Char
  confidence : Nat
  type : String
  domain : List Char
deriving DecidableEq, Repr

/-- Scoring and filtering loop of extract_verification_links: keep each
candidate whose score is strictly above 0.3 (scaled: 30). -/
def build_scored (uniqueLinks : List (List Char)) (content : List Char) : List LinkEntry :=
  uniqueLinks.filterMap fun l =>
    let s := score_verification_link l content
    if 30 < s then
      some { url := l, confidence := s, type := classify_link_type l, domain := urlNetloc l }
    else none

/-- Descending-confidence order used by the final sort. -/
def linkOrder (a b : LinkEntry) : Prop := b.confidence ≤ a.confidence

instance : DecidableRel linkOrder :=
  fun a b => inferInstanceAs (Decidable (b.confidence ≤ a.confidence))

instance : IsTotal LinkEntry linkOrder :=
  ⟨fun a b => le_total b.confidence a.confidence⟩

instance : IsTrans LinkEntry linkOrder :=
  ⟨fun _ _ _ h1 h2 => le_trans h2 h1⟩

/-- Result shape of extract_verification_links (email_analysis and the
confidence_scores mirror of the entry list are omitted). -/
structure ExtractResult where
  success : Bool
  links : List LinkEntry
  primary_link : Option (List Char)
  error : Option String
deriving DecidableEq, Repr

/-- Model of EmailLinkExtractor.extract_verification_links (source lines
48-113) downstream of candidate extraction: score, filter, stably sort by
descending confidence, and set primary_link to the url of the first entry
when the list is non-empty. -/
def extract_verification_links (uniqueLinks : List (List Char))
    (content : List Char) : ExtractResult :=
  let scored := List.insertionSort linkOrder (build_scored uniqueLinks content)
  { success := true, links := scored,
    primary_link := scored.head?.map (·.url), error := none }

/-- Error shape returned by the enclosing except clause of
extract_verification_links when anything inside raises. -/
def extract_error_result (e : String) : ExtractResult :=
  { success := false, links := [], primary_link := none, error := some e }

end EmailLinkExtractor

/-! ## PlaywrightAutomator (src/backup/playwright_automation.py)

The backup engine appends one record per event to its results list: every
executed action contributes exactly one action_completed or action_error
record (plus a data record for screenshot and extract actions), the
captcha and email-verification checks contribute informational records,
and run appends a final screenshot.  Page-operation outcomes are modelled
by an environment: none means the operation succeeded, some msg means it
raised an exception carrying that message. -/

namespace BackupAutomation

/-- Record kinds appended to PlaywrightAutomator.results. -/
inductive RRecord
  | action_completed (action : String)
  | action_error (action : String) (err : String)
  | screenshot
  | extracted_data (selector : String)
  | captcha_detected (selector : String)
  | email_verification_required (indicator : String)
  | final_screenshot
  | run_error (msg : String)
deriving DecidableEq, Repr

/-- Decides whether a record is the per-action entry of one executed
action (the completion or error record), as opposed to an informational
data or check record. -/
def isActionRecord : RRecord → Bool
  | .action_completed _ => true
  | .action_error _ _ => true
  | _ => false

/-- One declarative action of the configured sequence. -/
structure Action where
  type : String
  selector : Option String := none
  value : String := ""
deriving DecidableEq, Repr

/-- Model of PlaywrightAutomator.execute_action (source lines 116-187): the
environment argument gives the combined outcome of the page operations the
action performs (none = success).  On an exception one action_error record
is appended; on success the screenshot and extract branches append their
data record and every branch then appends one action_completed record. -/
def execute_action (a : Action) (env : Option String) : List RRecord :=
  match env with
  | some m => [.action_error a.type m]
  | none =>
    (if a.type = "screenshot" then [.screenshot]
     else if a.type = "extract" then [.extracted_data (a.selector.getD "")]
     else []) ++ [.action_completed a.type]

/-- Model of PlaywrightAutomator.execute_actions (source lines 97-114): an
exception of the initial navigation is caught and recorded as one error
record, skipping the action loop; otherwise each configured action runs
exactly once (execute_action itself never raises). -/
def execute_actions (gotoOutcome : Option String)
    (acts : List (Action × Option String)) : List RRecord :=
  match gotoOutcome with
  | some m => [.run_error m]
  | none => acts.flatMap fun p => execute_action p.1 p.2

/-- Environment of one backup run.  browserLaunched records whether the
browser object was assigned before any setup failure; captchaSel and
verificationInd are the findings of the two post-loop checks (none = no
obstacle found); finalOk is the outcome of the final screenshot and title
reads. -/
structure RunEnv where
  setupOk : Bool
  browserLaunched : Bool
  gotoOutcome : Option String
  actionEnvs : List (Option String)
  captchaSel : Option String
  verificationInd : Option String
  finalOk : Bool
deriving DecidableEq, Repr

/-- Outcome of one backup run: the success flag of the returned
dictionary, the accumulated results list, and how many times
browser.close() was invoked by cleanup. -/
structure RunResult where
  success : Bool
  results : List RRecord
  closeCalls : Nat
deriving DecidableEq, Repr

/-- Model of PlaywrightAutomator.run (source lines 251-287): setup, the
action loop, the captcha and email-verification checks, and the final
screenshot, with cleanup in the finally clause closing the browser exactly
when it was launched. -/
def run (acts : List Action) (env : RunEnv) : RunResult :=
  let closes := if env.browserLaunched then 1 else 0
  if env.setupOk = false then
    { success := false, results := [], closeCalls := closes }
  else
    let rs := execute_actions env.gotoOutcome (acts.zip env.actionEnvs)
    let rs := rs ++ (match env.captchaSel with
      | some s => [.captcha_detected s]
      | none => [])
    let rs := rs ++ (match env.verificationInd with
      | some i => [.email_verification_required i]
      | none => [])
    if env.finalOk then
      { success := true, results := rs ++ [.final_screenshot], closeCalls := closes }
    else
      { success := false, results := rs, closeCalls := closes }

/-- The single per-action record execute_action appends for one action. -/
def recordOf (p : Action × Option String) : RRecord :=
  match p.2 with
  | some m => .action_error p.1.type m
  | none => .action_completed p.1.type

end BackupAutomation

/-! ## AdvancedPlaywrightAutomation (src/python_scripts/advanced_playwright_automation.py)

execute_action wraps its whole dispatch in try/except and converts any
exception into a returned failure dictionary; run_automation initialises
the browser, navigates, loops over the actions with a captcha check before
each one, and closes the browser in a finally clause on every exit path.
Exceptions (including task cancellation at a suspension point, which in
asyncio is an exception raised at an await) are modelled by some msg
outcomes in the environment. -/

namespace AdvancedAutomation

/-- One declarative action of the configuration. -/
structure Action where
  type : String
  selector : Option String := none
  value : Option String := none
deriving DecidableEq, Repr

/-- Outcomes of the page operations one action issues, in program order
(none = the operation succeeded, some msg = it raised).  op1 is the first
operation of the branch (goto, wait_for_selector, ...); op2, op3, op4
cover the follow-up operations of the multi-step branches; for the click
branch op3 is the direct element click and op4 the scripted fallback.
extracted and evalResult carry the data the extract and evaluate branches
read from the page. -/
structure ActEnv where
  op1 : Option String := none
  op2 : Option String := none
  op3 : Option String := none
  op4 : Option String := none
  extracted : List String := []
  evalResult : String := ""
deriving DecidableEq, Repr

/-- Successful outcome of one action branch: plain completion, extracted
data, or a script result. -/
inductive ActionOut
  | done
  | data (xs : List String)
  | result (s : String)
deriving DecidableEq, Repr

/-- Returned value of execute_action: a success dictionary or the captured
failure dictionary with success false and an error message. -/
inductive ActionResult
  | ok (out : ActionOut)
  | failed (error : String)
deriving DecidableEq, Repr

/-- First raised message of a sequence of page operations, if any. -/
def seqOps : List (Option String) → Option String
  | [] => none
  | none :: rest => seqOps rest
  | some m :: _ => some m

/-- Runs a sequence of page operations and yields the given outcome when
none of them raises. -/
def withOps (ops : List (Option String)) (out : ActionOut) : Except String ActionOut :=
  match seqOps ops with
  | some m => Except.error m
  | none => Except.ok out

/-- Action types of the single-operation dispatch branches. -/
def simpleTypes : List String :=
  ["wait", "select", "hover", "scroll", "screenshot", "wait_for_navigation",
   "upload_file", "handle_dialog", "switch_frame", "wait_for_element",
   "check_element_exists", "get_page_title", "get_current_url",
   "wait_for_load_state"]

/-- All action types the dispatch of execute_action handles. -/
def knownTypes : List String :=
  ["goto", "click", "fill", "type", "extract", "evaluate", "custom_script"] ++ simpleTypes

/-- Try-block body of AdvancedPlaywrightAutomation.execute_action (source
lines 104-232): dispatch on the action type, raising the first exception
of the issued page operations, with two special branches translated in
detail: click attempts the direct element click (op3) and falls back to a
scripted click (op4) before failing, and an unknown action type raises a
ValueError. -/
def execute_action_body (a : Action) (env : ActEnv) : Except String ActionOut :=
  if a.type = "goto" then withOps [env.op1, env.op2] .done
  else if a.type = "click" then
    match seqOps [env.op1, env.op2] with
    | some m => Except.error m
    | none =>
      match env.op3 with
      | none => Except.ok .done
      | some _ =>
        match env.op4 with
        | none => Except.ok .done
        | some m2 => Except.error m2
  else if a.type = "fill" then withOps [env.op1, env.op2, env.op3, env.op4] .done
  else if a.type = "type" then withOps [env.op1, env.op2, env.op3] .done
  else if a.type = "extract" then withOps [env.op1] (.data env.extracted)
  else if a.type = "evaluate" ∨ a.type = "custom_script" then
    withOps [env.op1] (.result env.evalResult)
  else if a.type ∈ simpleTypes then withOps [env.op1] .done
  else Except.error ("Unknown action type: " ++ a.type)

/-- Model of AdvancedPlaywrightAutomation.execute_action (source lines
95-238): the surrounding try/except converts every exception of the body
into a returned failure dictionary carrying the formatted error message;
nothing propagates to the caller. -/
def execute_action (a : Action) (env : ActEnv) : ActionResult :=
  match execute_action_body a env with
  | Except.ok o => .ok o
  | Except.error m => .failed ("Action " ++ a.type ++ " failed: " ++ m)

/-- Outcome of the browser initialisation: full success, a failure before
the browser object was assigned, or a failure after it was assigned. -/
inductive InitOutcome
  | ok
  | failBeforeLaunch (msg : String)
  | failAfterLaunch (msg : String)
deriving DecidableEq, Repr

/-- Decides whether the initialisation outcome left an assigned browser
object (the finally clause closes the browser exactly in that case). -/
def launched : InitOutcome → Bool
  | .ok => true
  | .failBeforeLaunch _ => false
  | .failAfterLaunch _ => true

/-- Decidable equality for exception-or-value outcomes. -/
instance exceptDecEq : DecidableEq (Except String Bool)
  | .ok a, .ok b =>
    if h : a = b then isTrue (by rw [h])
    else isFalse (fun hc => by cases hc; exact h rfl)
  | .ok _, .error _ => isFalse (fun hc => by cases hc)
  | .error _, .ok _ => isFalse (fun hc => by cases hc)
  | .error a, .error b =>
    if h : a = b then isTrue (by rw [h])
    else isFalse (fun hc => by cases hc; exact h rfl)

/-- Per-action slice of the run environment: the outcome of the captcha
check preceding the action (Except.error = a page operation of the check
raised, Except.ok found = the check completed), the outcome of the fixed
wait performed when a captcha was found, the page-operation outcomes of
the action itself, and the outcome of the inter-action delay. -/
structure StepEnv where
  checkOutcome : Except String Bool
  captchaWait : Option String := none
  actEnv : ActEnv := {}
  delayOutcome : Option String := none
deriving DecidableEq, Repr

/-- Environment of one advanced run. -/
structure ARunEnv where
  init : InitOutcome
  navOutcome : Option String
  steps : List StepEnv
  finalOutcome : Option String
deriving DecidableEq, Repr

/-- Report of one advanced run: the success flag and error of the returned
dictionary, the number of actions for which execute_action was invoked,
and how many times browser.close() ran in the finally clause. -/
structure AReport where
  success : Bool
  error : Option String
  executed : Nat
  closeCalls : Nat
deriving DecidableEq, Repr

/-- Action loop of run_automation: before each action the captcha check
runs (an exception there aborts the loop); a found captcha triggers the
fixed wait; execute_action then runs and never raises, so the loop
continues regardless of the action result; the inter-action delay may
raise (for instance on cancellation).  Returns the number of actions
executed and the first escaped exception, if any. -/
def runLoop : List (Action × StepEnv) → Nat × Option String
  | [] => (0, none)
  | (a, st) :: rest =>
    match st.checkOutcome with
    | Except.error m => (0, some m)
    | Except.ok found =>
      match (if found then st.captchaWait else none) with
      | some m => (0, some m)
      | none =>
        let _r := execute_action a st.actEnv
        match st.delayOutcome with
        | some m => (1, some m)
        | none =>
          let rec0 := runLoop rest
          (rec0.1 + 1, rec0.2)

/-- Model of AdvancedPlaywrightAutomation.run_automation (source lines
275-341): initialise the browser, navigate to the configured url, run the
action loop, take the final screenshot; any escaped exception is caught
and reported as a failure dictionary; the finally clause closes the
browser exactly when it was assigned. -/
def run_automation (acts : List Action) (env : ARunEnv) : AReport :=
  let closes := if launched env.init then 1 else 0
  match env.init with
  | .failBeforeLaunch m =>
    { success := false, error := some ("Automation failed: " ++ m),
      executed := 0, closeCalls := closes }
  | .failAfterLaunch m =>
    { success := false, error := some ("Automation failed: " ++ m),
      executed := 0, closeCalls := closes }
  | .ok =>
    match env.navOutcome with
    | some m =>
      { success := false, error := some ("Automation failed: " ++ m),
        executed := 0, closeCalls := closes }
    | none =>
      let lp := runLoop (acts.zip env.steps)
      match lp.2 with
      | some m =>
        { success := false, error := some ("Automation failed: " ++ m),
          executed := lp.1, closeCalls := closes }
      | none =>
        match env.finalOutcome with
        | some m =>
          { success := false, error := some ("Automation failed: " ++ m),
            executed := lp.1, closeCalls := closes }
        | none =>
          { success := true, error := none, executed := lp.1, closeCalls := closes }

end AdvancedAutomation

/-! ## Helper lemmas -/

/-- Every page operation issued by the detect_captcha probe loop is a
query_selector, hence read-only. -/
theorem detect_aux_ops_readonly (sels : List String) (p : Detect.Page) :
    ∀ op ∈ (Detect.detect_captcha_aux sels p).2, Detect.isReadOnly op = true := by
  induction sels with
  | nil => intro op h; simp [Detect.detect_captcha_aux] at h
  | cons s rest ih =>
    intro op h
    by_cases hp : p.present s
    · simp [Detect.detect_captcha_aux, hp] at h
      subst h; rfl
    · simp [Detect.detect_captcha_aux, hp] at h
      rcases h with h | h
      · subst h; rfl
      · exact ih op h

/-- Applying a sequence of read-only page operations leaves the page
unchanged. -/
theorem applyOps_readonly (ops : List Detect.PageOp) (p : Detect.Page)
    (h : ∀ op ∈ ops, Detect.isReadOnly op = true) : Detect.applyOps ops p = p := by
  induction ops with
  | nil => rfl
  | cons o rest ih =>
    have ho := h o (by simp)
    have hstep : Detect.applyOp o p = p := by
      cases o with
      | query_selector s => rfl
      | click s => simp [Detect.isReadOnly] at ho
      | fill s v => simp [Detect.isReadOnly] at ho
    show Detect.applyOps rest (Detect.applyOp o p) = p
    rw [hstep]
    exact ih (fun op hop => h op (by simp [hop]))

/-- The score of a candidate link never exceeds the cap of 1.0 (100). -/
theorem score_le_cap (l c : List Char) :
    EmailLinkExtractor.score_verification_link l c ≤ 100 := by
  unfold EmailLinkExtractor.score_verification_link
  exact min_le_right _ _

/-- Every entry kept by the scoring filter has confidence strictly above
0.3 (30) and at most 1.0 (100). -/
theorem mem_build_scored {links : List (List Char)} {content : List Char}
    {x : EmailLinkExtractor.LinkEntry}
    (hx : x ∈ EmailLinkExtractor.build_scored links content) :
    30 < x.confidence ∧ x.confidence ≤ 100 := by
  unfold EmailLinkExtractor.build_scored at hx
  rcases List.mem_filterMap.mp hx with ⟨l, _, hl⟩
  by_cases hs : 30 < EmailLinkExtractor.score_verification_link l content
  · simp [hs] at hl
    rw [← hl]
    exact ⟨hs, score_le_cap l content⟩
  · simp [hs] at hl

/-- A kind appears in the text-scan output exactly when one of its pattern
entries pushes its aggregate confidence above 0.2 (20). -/
theorem mem_textScanAux (l : List (String × List CaptchaDetector.Pat))
    (text : List Char) (k : String) :
    k ∈ (CaptchaDetector.textScanAux l text).map Prod.fst ↔
      ∃ ps, (k, ps) ∈ l ∧ 20 < 30 * CaptchaDetector.countMatches ps text := by
  induction l with
  | nil => simp [CaptchaDetector.textScanAux]
  | cons hd rest ih =>
    obtain ⟨k', ps'⟩ := hd
    by_cases hc : 20 < 30 * CaptchaDetector.countMatches ps' text
    · constructor
      · intro h
        simp only [CaptchaDetector.textScanAux, if_pos hc, List.map_append, List.map_cons,
          List.map_nil, List.mem_append, List.mem_cons, List.not_mem_nil, or_false] at h
        rcases h with h | h
        · subst h
          exact ⟨ps', List.mem_cons_self _ _, hc⟩
        · rcases ih.mp h with ⟨ps, hmem, hgt⟩
          exact ⟨ps, List.mem_cons_of_mem _ hmem, hgt⟩
      · rintro ⟨ps, hmem, hgt⟩
        simp only [CaptchaDetector.textScanAux, if_pos hc, List.map_append, List.map_cons,
          List.map_nil, List.mem_append, List.mem_cons, List.not_mem_nil, or_false]
        rcases List.mem_cons.mp hmem with heq | htl
        · left
          exact congrArg Prod.fst heq
        · right
          exact ih.mpr ⟨ps, htl, hgt⟩
    · constructor
      · intro h
        simp only [CaptchaDetector.textScanAux, if_neg hc, List.nil_append] at h
        rcases ih.mp h with ⟨ps, hmem, hgt⟩
        exact ⟨ps, List.mem_cons_of_mem _ hmem, hgt⟩
      · rintro ⟨ps, hmem, hgt⟩
        simp only [CaptchaDetector.textScanAux, if_neg hc, List.nil_append]
        rcases List.mem_cons.mp hmem with heq | htl
        · exfalso
          have h2 : ps = ps' := congrArg Prod.snd heq
          exact hc (h2 ▸ hgt)
        · exact ih.mpr ⟨ps, htl, hgt⟩

/-- The per-action record projection of one backup action execution. -/
theorem execute_action_filter (a : BackupAutomation.Action) (e : Option String) :
    (BackupAutomation.execute_action a e).filter BackupAutomation.isActionRecord
      = [BackupAutomation.recordOf (a, e)] := by
  cases e with
  | some m => rfl
  | none =>
    by_cases h1 : a.type = "screenshot"
    · simp [BackupAutomation.execute_action, BackupAutomation.recordOf, h1,
        BackupAutomation.isActionRecord]
    · by_cases h2 : a.type = "extract"
      · simp [BackupAutomation.execute_action, BackupAutomation.recordOf, h1, h2,
          BackupAutomation.isActionRecord]
      · simp [BackupAutomation.execute_action, BackupAutomation.recordOf, h1, h2,
          BackupAutomation.isActionRecord]

/-- With a successful initial navigation, the per-action records of the
backup action loop are exactly one record per configured action, in
order. -/
theorem execute_actions_filter (l : List (BackupAutomation.Action × Option String)) :
    (BackupAutomation.execute_actions none l).filter BackupAutomation.isActionRecord
      = l.map BackupAutomation.recordOf := by
  induction l with
  | nil => rfl
  | cons p rest ih =>
    show ((BackupAutomation.execute_action p.1 p.2 ++
        BackupAutomation.execute_actions none rest).filter BackupAutomation.isActionRecord)
      = BackupAutomation.recordOf p :: rest.map BackupAutomation.recordOf
    rw [List.filter_append, execute_action_filter, ih]
    rfl

/-- A run-loop whose captcha checks all report no obstacle and whose
delays do not raise executes every action and escapes no exception. -/
theorem runLoop_clean (l : List (AdvancedAutomation.Action × AdvancedAutomation.StepEnv))
    (h : ∀ p ∈ l, p.2.checkOutcome = Except.ok false ∧ p.2.delayOutcome = none) :
    AdvancedAutomation.runLoop l = (l.length, none) := by
  induction l with
  | nil => rfl
  | cons p rest ih =>
    obtain ⟨hck, hdl⟩ := h p (by simp)
    have hrest := ih (fun q hq => h q (by simp [hq]))
    simp [AdvancedAutomation.runLoop, hck, hdl, hrest]

/-! ## Claim theorems -/

/-- Claim C7: obstacle detection is idempotent and read-only.  For every
page state, detect_captcha issues only read-only page operations, applying
its issued operation trace leaves the page unchanged, and a second check
run immediately after the first (on the page as left by the first) yields
the same classification. -/
theorem C7_detection_read_only_idempotent (p : Detect.Page) :
    (∀ op ∈ (Detect.detect_captcha p).2, Detect.isReadOnly op = true) ∧
    Detect.applyOps (Detect.detect_captcha p).2 p = p ∧
    (Detect.detect_captcha (Detect.applyOps (Detect.detect_captcha p).2 p)).1
      = (Detect.detect_captcha p).1 := by
  have hops := detect_aux_ops_readonly Detect.captcha_selectors p
  have hfix : Detect.applyOps (Detect.detect_captcha p).2 p = p :=
    applyOps_readonly _ _ hops
  exact ⟨hops, hfix, by rw [hfix]⟩

/-- Claim C8: a fill action first clears the existing field content and
then writes the new value: in both automation scripts the field afterwards
holds exactly the new value, and when the field was non-empty the result
is never the concatenation of old and new content. -/
theorem C8_fill_clears_before_write (old v : String) :
    FillSemantics.advanced_fill old v = v ∧
    FillSemantics.backup_fill old v = v ∧
    (old ≠ "" →
      FillSemantics.advanced_fill old v ≠ old ++ v ∧
      FillSemantics.backup_fill old v ≠ old ++ v) := by
  have hadv : FillSemantics.advanced_fill old v = v := rfl
  have hbak : FillSemantics.backup_fill old v = v := by
    show ("" : String) ++ v = v
    simp
  refine ⟨hadv, hbak, fun hne => ?_⟩
  have hlen : old.length ≠ 0 := by
    intro h0
    apply hne
    cases old with
    | mk data =>
      cases data with
      | nil => rfl
      | cons c cs => simp [String.length] at h0
  have hmain : (old ++ v : String) ≠ v := by
    intro heq
    have := congrArg String.length heq
    rw [String.length_append] at this
    omega
  constructor
  · rw [hadv]
    exact fun h => hmain h.symm
  · rw [hbak]
    exact fun h => hmain h.symm

/-- Witness for claim C8 at a concrete non-empty field. -/
theorem C8_fill_clears_before_write_witness :
    FillSemantics.advanced_fill "abc" "xy" = "xy" ∧
    FillSemantics.advanced_fill "abc" "xy" ≠ "abc" ++ "xy" :=
  ⟨(C8_fill_clears_before_write "abc" "xy").1,
   ((C8_fill_clears_before_write "abc" "xy").2.2 (by decide)).1⟩

/-- Claim C9: the image-selection solver, lacking any real object-detection
back end, does not return a SolverFailure on a detected grid: it returns a
success whose selected cells depend on the random draws, so its output is
not a deterministic function of the captcha input.  On a detected 3 by 3
grid, two RNG streams yield success results with different selections. -/
theorem C9_random_guess_bug :
    (AICaptchaSolver.solve_image_selection ⟨true, 3, 3⟩ [0, 0, 0]).success = true ∧
    (AICaptchaSolver.solve_image_selection ⟨true, 3, 3⟩ [0, 1, 1]).success = true ∧
    (AICaptchaSolver.solve_image_selection ⟨true, 3, 3⟩ [0, 0, 0]).solution
      ≠ (AICaptchaSolver.solve_image_selection ⟨true, 3, 3⟩ [0, 1, 1]).solution := by
  decide

/-- Claim C5 counterexample: a single detector check does not return
exactly one classification.  On a screenshot with no visual or colour
findings, detect_from_screenshot already reports two kinds, recaptcha and
image_captcha (the fixed recognised text matches patterns of both), so the
returned classification list has length two, not one, and no
highest-confidence selection or captcha-before-email_verification
tie-break takes place (the detector has no email_verification kind at
all). -/
theorem C5_single_classification_counterexample :
    (CaptchaDetector.detect_from_screenshot ⟨false, false, false, false, false⟩).captcha_types
      = ["recaptcha", "image_captcha"] ∧
    ((CaptchaDetector.detect_from_screenshot
        ⟨false, false, false, false, false⟩).captcha_types).length ≠ 1 := by
  decide

/-- Claim C5 as amended: one check returns the list of all kinds detected
by the signal classes (text patterns, visual structure, colour), possibly
several at once; a text-signal kind is reported exactly when its aggregate
confidence, 0.3 (30) per matching pattern, exceeds the fixed minimum 0.2
(20); there is no single highest-confidence selection and no tie-break
priority. -/
theorem C5_all_detected_kinds_reported (text : List Char)
    (v : CaptchaDetector.VisionSignals) :
    ((CaptchaDetector.detect_from_screenshot v).captcha_types =
      CaptchaDetector.detect_text_based_captcha.types ++
        CaptchaDetector.detect_visual_captcha v ++
        CaptchaDetector.detect_color_patterns v) ∧
    (∀ k : String, k ∈ (CaptchaDetector.detect_text_on text).types ↔
      ∃ ps, (k, ps) ∈ CaptchaDetector.captcha_patterns ∧
        20 < 30 * CaptchaDetector.countMatches ps text) := by
  constructor
  · rfl
  · intro k
    exact mem_textScanAux CaptchaDetector.captcha_patterns text k

/-- Claim C10: invariants of the verification-link extraction result.  For
every candidate list and message, the returned result has success true,
every kept entry has confidence strictly above 0.3 (30) and at most 1.0
(100), the entry list is sorted by non-increasing confidence, primary_link
is the url of the first entry when the list is non-empty and none when it
is empty, and the error shape returned when anything inside raises has
success false with an empty entry list. -/
theorem C10_extract_link_invariants (links : List (List Char)) (content : List Char)
    (e : String) :
    (EmailLinkExtractor.extract_verification_links links content).success = true ∧
    (∀ x ∈ (EmailLinkExtractor.extract_verification_links links content).links,
      30 < x.confidence ∧ x.confidence ≤ 100) ∧
    List.Sorted EmailLinkExtractor.linkOrder
      (EmailLinkExtractor.extract_verification_links links content).links ∧
    ((EmailLinkExtractor.extract_verification_links links content).links = [] →
      (EmailLinkExtractor.extract_verification_links links content).primary_link = none) ∧
    (∀ x t, (EmailLinkExtractor.extract_verification_links links content).links = x :: t →
      (EmailLinkExtractor.extract_verification_links links content).primary_link
        = some x.url) ∧
    ((EmailLinkExtractor.extract_error_result e).success = false ∧
      (EmailLinkExtractor.extract_error_result e).links = [] ∧
      (EmailLinkExtractor.extract_error_result e).primary_link = none) := by
  refine ⟨rfl, ?_, ?_, ?_, ?_, rfl, rfl, rfl⟩
  · intro x hx
    have hmem : x ∈ EmailLinkExtractor.build_scored links content := by
      have hperm := List.perm_insertionSort EmailLinkExtractor.linkOrder
        (EmailLinkExtractor.build_scored links content)
      exact hperm.mem_iff.mp hx
    exact mem_build_scored hmem
  · exact List.sorted_insertionSort EmailLinkExtractor.linkOrder _
  · intro h
    show (List.insertionSort EmailLinkExtractor.linkOrder
        (EmailLinkExtractor.build_scored links content)).head?.map (·.url) = none
    have h2 : List.insertionSort EmailLinkExtractor.linkOrder
        (EmailLinkExtractor.build_scored links content) = [] := h
    rw [h2]
    rfl
  · intro x t h
    show (List.insertionSort EmailLinkExtractor.linkOrder
        (EmailLinkExtractor.build_scored links content)).head?.map (·.url) = some x.url
    have h2 : List.insertionSort EmailLinkExtractor.linkOrder
        (EmailLinkExtractor.build_scored links content) = x :: t := h
    rw [h2]
    rfl

/-- Witness for claim C10 at concrete inputs: the empty candidate list
yields an empty entry list and no primary link. -/
theorem C10_extract_link_invariants_witness :
    (EmailLinkExtractor.extract_verification_links [] []).primary_link = none :=
  (C10_extract_link_invariants [] [] "err").2.2.2.1 rfl

section

open IntelligentCaptchaSolver

/-- Every result produced by a cascade candidate is accepted (success)
exactly when its confidence reaches the acceptance threshold the spec
states for its kind: the AI-vision back ends succeed with confidence 0.8
(80), at or above the default threshold 0.5 (50), the external paid
services succeed with confidence 0.9 (90), exactly their threshold, and
every failure result carries confidence 0 below any threshold. -/
theorem candidate_accept_iff_threshold (env : Env) (m : String) :
    ∀ r ∈ candidateResults env m,
      (r.success = true ↔ specAcceptThreshold (r.method.getD "") ≤ r.confidence) := by
  intro r hr
  have hcases : r = (solve_with_ai_vision env m).1 ∨
      r = (solve_with_service env "2captcha").1 ∨
      r = (solve_with_service env "anticaptcha").1 := by
    simpa [candidateResults] using hr
  rcases hcases with h | h | h <;> subst h
  · unfold solve_with_ai_vision solve_with_openai solve_with_anthropic
    split
    · split
      · simp [specAcceptThreshold]
      · rcases env.openaiAnswer with _ | a <;> simp [specAcceptThreshold]
    · split
      · split
        · simp [specAcceptThreshold]
        · rcases env.anthropicAnswer with _ | a <;> simp [specAcceptThreshold]
      · simp [specAcceptThreshold]
  · unfold solve_with_service solve_with_2captcha
    split
    · split
      · simp [specAcceptThreshold]
      · rcases env.twocaptchaAnswer with _ | a <;> simp [specAcceptThreshold]
    · split
      · unfold solve_with_anticaptcha
        split
        · simp [specAcceptThreshold]
        · rcases env.anticaptchaAnswer with _ | a <;> simp [specAcceptThreshold]
      · simp [specAcceptThreshold]
  · unfold solve_with_service solve_with_2captcha
    split
    · split
      · simp [specAcceptThreshold]
      · rcases env.twocaptchaAnswer with _ | a <;> simp [specAcceptThreshold]
    · split
      · unfold solve_with_anticaptcha
        split
        · simp [specAcceptThreshold]
        · rcases env.anticaptchaAnswer with _ | a <;> simp [specAcceptThreshold]
      · simp [specAcceptThreshold]

/-- Claim C2: the solver cascade tries its candidates strictly in
configured order (AI vision, then 2captcha, then anticaptcha), stops at
the first accepted candidate and invokes no later one (the invocation
trace of the accepted run ends at the accepting candidate), every
candidate result is accepted exactly when its confidence reaches the
per-kind acceptance threshold (0.5 default, 0.9 for the external paid
services, scaled by 100), and when every candidate is exhausted the
cascade returns the terminal failure (success false, the all-methods
message) with all three candidates recorded as attempted. -/
theorem C2_solver_cascade (env : Env) (m : String) :
    ((solve_with_ai_vision env m).1.success = true →
      solve_captcha env m = ((solve_with_ai_vision env m).1, ["ai_vision"])) ∧
    ((solve_with_ai_vision env m).1.success = false →
      (solve_with_service env "2captcha").1.success = true →
      solve_captcha env m
        = ((solve_with_service env "2captcha").1, ["ai_vision", "2captcha"])) ∧
    ((solve_with_ai_vision env m).1.success = false →
      (solve_with_service env "2captcha").1.success = false →
      (solve_with_service env "anticaptcha").1.success = true →
      solve_captcha env m = ((solve_with_service env "anticaptcha").1,
        ["ai_vision", "2captcha", "anticaptcha"])) ∧
    ((solve_with_ai_vision env m).1.success = false →
      (solve_with_service env "2captcha").1.success = false →
      (solve_with_service env "anticaptcha").1.success = false →
      solve_captcha env m
        = ({ success := false, error := some "All solving methods failed" },
           ["ai_vision", "2captcha", "anticaptcha"])) ∧
    (∀ r ∈ candidateResults env m,
      (r.success = true ↔ specAcceptThreshold (r.method.getD "") ≤ r.confidence)) := by
  refine ⟨?_, ?_, ?_, ?_, candidate_accept_iff_threshold env m⟩
  · intro h1
    simp [solve_captcha, h1]
  · intro h1 h2
    simp [solve_captcha, h1, h2]
  · intro h1 h2 h3
    simp [solve_captcha, h1, h2, h3]
  · intro h1 h2 h3
    simp [solve_captcha, h1, h2, h3]

/-- Witness for claim C2: with only the OpenAI key configured and a
successful vision answer, the cascade returns that answer after the first
candidate alone. -/
theorem C2_solver_cascade_witness :
    solve_captcha
        ⟨true, false, false, false, some "W3X9", none, none, none⟩ "gpt-4-vision"
      = ((solve_with_ai_vision
          ⟨true, false, false, false, some "W3X9", none, none, none⟩ "gpt-4-vision").1,
         ["ai_vision"]) :=
  (C2_solver_cascade ⟨true, false, false, false, some "W3X9", none, none, none⟩
    "gpt-4-vision").1 (by decide)

/-- Claim C3: an adapter whose required credential is absent performs no
network request and fails immediately with the distinguished
not-configured failure shape: solve_recaptcha_v2 with neither service key
returns the no_api_key failure with zero requests, solve_with_service for
an unconfigured service returns the service-not-available failure with
zero requests, and the 2captcha and anticaptcha adapters with their key
absent return the key-not-available failure with zero requests. -/
theorem C3_not_configured_fails_fast (envA : AICaptchaSolver.Env)
    (envI : Env) (service : String) :
    (envA.twocaptcha_key = false → envA.anticaptcha_key = false →
      AICaptchaSolver.solve_recaptcha_v2 envA
        = ({ success := false, method := "no_api_key",
             error := some "No CAPTCHA solving API key configured" }, 0)) ∧
    ((service = "2captcha" → envI.twocaptcha_api_key = false) →
     (service = "anticaptcha" → envI.anticaptcha_api_key = false) →
      solve_with_service envI service
        = ({ success := false,
             error := some ("Service " ++ service ++ " not available") }, 0)) ∧
    (envI.twocaptcha_api_key = false →
      solve_with_2captcha envI
        = ({ success := false, error := some "2captcha API key not available" }, 0)) ∧
    (envI.anticaptcha_api_key = false →
      solve_with_anticaptcha envI
        = ({ success := false, error := some "Anti-captcha API key not available" }, 0)) := by
  refine ⟨?_, ?_, ?_, ?_⟩
  · intro h1 h2
    simp [AICaptchaSolver.solve_recaptcha_v2, h1, h2]
  · intro h1 h2
    have hc1 : ¬(service = "2captcha" ∧ envI.twocaptcha_api_key) := by
      rintro ⟨hs, hk⟩
      rw [h1 hs] at hk
      exact Bool.false_ne_true hk
    have hc2 : ¬(service = "anticaptcha" ∧ envI.anticaptcha_api_key) := by
      rintro ⟨hs, hk⟩
      rw [h2 hs] at hk
      exact Bool.false_ne_true hk
    rw [solve_with_service, if_neg hc1, if_neg hc2]
  · intro h1
    simp [solve_with_2captcha, h1]
  · intro h1
    simp [solve_with_anticaptcha, h1]

/-- Witness for claim C3: with every key absent, both adapter entry points
fail immediately with zero network requests. -/
theorem C3_not_configured_fails_fast_witness :
    AICaptchaSolver.solve_recaptcha_v2 ⟨false, false, none, none⟩
      = ({ success := false, method := "no_api_key",
           error := some "No CAPTCHA solving API key configured" }, 0) ∧
    solve_with_service ⟨false, false, false, false, none, none, none, none⟩ "2captcha"
      = ({ success := false,
           error := some ("Service " ++ "2captcha" ++ " not available") }, 0) :=
  ⟨(C3_not_configured_fails_fast ⟨false, false, none, none⟩
      ⟨false, false, false, false, none, none, none, none⟩ "2captcha").1 rfl rfl,
   (C3_not_configured_fails_fast ⟨false, false, none, none⟩
      ⟨false, false, false, false, none, none, none, none⟩ "2captcha").2.1
     (fun _ => rfl) (fun _ => rfl)⟩

end

section

open AdvancedAutomation

/-- Claim C4: an action failure never raises to the caller of
execute_action.  Whenever the dispatch body escapes with an exception, the
returned ActionResult is the captured failure carrying success false and
the formatted error message; a success of the body is returned unchanged;
every returned failure originates from a captured body exception; an
unknown action type (the raised ValueError) is likewise captured; and a
failing direct click whose scripted fallback succeeds is not a failure at
all.  The engine receives only returned results, so retry, skip, or abort
stays its decision. -/
theorem C4_action_failure_captured (a : Action) (env : ActEnv) :
    (∀ m, execute_action_body a env = Except.error m →
      execute_action a env = .failed ("Action " ++ a.type ++ " failed: " ++ m)) ∧
    (∀ o, execute_action_body a env = Except.ok o → execute_action a env = .ok o) ∧
    (∀ e, execute_action a env = .failed e →
      ∃ m, execute_action_body a env = Except.error m ∧
        e = "Action " ++ a.type ++ " failed: " ++ m) ∧
    (a.type ∉ knownTypes →
      execute_action a env
        = .failed ("Action " ++ a.type ++ " failed: "
            ++ ("Unknown action type: " ++ a.type))) ∧
    (∀ m3, a.type = "click" → env.op1 = none → env.op2 = none →
      env.op3 = some m3 → env.op4 = none → execute_action a env = .ok .done) := by
  refine ⟨?_, ?_, ?_, ?_, ?_⟩
  · intro m hm
    rw [execute_action, hm]
  · intro o ho
    rw [execute_action, ho]
  · intro e he
    cases hb : execute_action_body a env with
    | ok o =>
      rw [execute_action, hb] at he
      cases he
    | error m =>
      rw [execute_action, hb] at he
      cases he
      exact ⟨m, rfl, rfl⟩
  · intro hk
    have hbody : execute_action_body a env
        = Except.error ("Unknown action type: " ++ a.type) := by
      rw [execute_action_body,
        if_neg (fun h => hk (by rw [h]; decide)),
        if_neg (fun h => hk (by rw [h]; decide)),
        if_neg (fun h => hk (by rw [h]; decide)),
        if_neg (fun h => hk (by rw [h]; decide)),
        if_neg (fun h => hk (by rw [h]; decide)),
        if_neg (fun h => by rcases h with h | h <;> exact hk (by rw [h]; decide)),
        if_neg (fun h => hk (List.mem_append_right _ h))]
    rw [execute_action, hbody]
  · intro m3 ht h1 h2 h3 h4
    rw [execute_action]
    rw [show execute_action_body a env = Except.ok .done by
      rw [execute_action_body]
      rw [if_neg (by rw [ht]; decide), if_pos ht]
      rw [h1, h2, h3, h4]
      rfl]

/-- Witness for claim C4: a fill action whose selector wait times out is
returned as a captured failure with the formatted message. -/
theorem C4_action_failure_captured_witness :
    execute_action ⟨"fill", some "#email", some "a@b.com"⟩
        { op1 := some "Timeout 30000ms exceeded" }
      = .failed ("Action " ++ "fill" ++ " failed: " ++ "Timeout 30000ms exceeded") :=
  (C4_action_failure_captured ⟨"fill", some "#email", some "a@b.com"⟩
    { op1 := some "Timeout 30000ms exceeded" }).1 "Timeout 30000ms exceeded" rfl

end

/-- Claim C6: on every exit path of a run (normal completion, action
failure, an exception escaping at any phase, or cancellation raised at a
suspension point, all enumerated by the run environment), the browser
close of the finally clause runs exactly once whenever the browser was
assigned, and zero times when initialisation failed before the browser
existed; this holds for both automation scripts. -/
theorem C6_session_closed_once (acts : List AdvancedAutomation.Action)
    (aenv : AdvancedAutomation.ARunEnv)
    (bacts : List BackupAutomation.Action) (benv : BackupAutomation.RunEnv) :
    (AdvancedAutomation.run_automation acts aenv).closeCalls
      = (if AdvancedAutomation.launched aenv.init then 1 else 0) ∧
    (BackupAutomation.run bacts benv).closeCalls
      = (if benv.browserLaunched then 1 else 0) := by
  constructor
  · rw [AdvancedAutomation.run_automation]
    cases aenv.init with
    | failBeforeLaunch m => rfl
    | failAfterLaunch m => rfl
    | ok =>
      cases aenv.navOutcome with
      | some m => rfl
      | none =>
        cases hl : (AdvancedAutomation.runLoop (acts.zip aenv.steps)).2 with
        | some m => simp [hl]
        | none =>
          cases aenv.finalOutcome with
          | some m => simp [hl]
          | none => simp [hl]
  · rw [BackupAutomation.run]
    by_cases hs : benv.setupOk = false
    · simp [hs]
    · simp only [hs, if_false]
      by_cases hf : benv.finalOk
      · simp [hf]
      · simp [hf]

/-- Claim C1: an obstacle-free run reports one result per action and ends
in the success state.  In the backup engine, whenever setup and the
initial navigation succeed and the post-run checks find no captcha and no
email-verification gate, the per-action records of the result log are
exactly one completion-or-error record per configured action in order (so
their count equals the number of actions) and the run returns success; in
the advanced engine, whenever initialisation and navigation succeed and
every pre-action captcha check reports no obstacle, every configured
action is executed exactly once and the run returns success. -/
theorem C1_no_obstacle_run_completes
    (acts : List BackupAutomation.Action) (env : BackupAutomation.RunEnv)
    (aacts : List AdvancedAutomation.Action) (aenv : AdvancedAutomation.ARunEnv)
    (h1 : env.setupOk = true) (h2 : env.gotoOutcome = none)
    (h3 : env.captchaSel = none) (h4 : env.verificationInd = none)
    (h5 : env.finalOk = true) (h6 : env.actionEnvs.length = acts.length)
    (g1 : aenv.init = .ok) (g2 : aenv.navOutcome = none) (g3 : aenv.finalOutcome = none)
    (g4 : aenv.steps.length = aacts.length)
    (g5 : ∀ s ∈ aenv.steps, s.checkOutcome = Except.ok false ∧ s.delayOutcome = none) :
    ((BackupAutomation.run acts env).results.filter BackupAutomation.isActionRecord
      = (acts.zip env.actionEnvs).map BackupAutomation.recordOf) ∧
    ((BackupAutomation.run acts env).results.filter
        BackupAutomation.isActionRecord).length = acts.length ∧
    (BackupAutomation.run acts env).success = true ∧
    (AdvancedAutomation.run_automation aacts aenv).executed = aacts.length ∧
    (AdvancedAutomation.run_automation aacts aenv).success = true := by
  have hbackup : (BackupAutomation.run acts env).results
      = BackupAutomation.execute_actions none (acts.zip env.actionEnvs)
        ++ [BackupAutomation.RRecord.final_screenshot] := by
    rw [BackupAutomation.run]
    simp [h1, h2, h3, h4, h5]
  have hfilter : (BackupAutomation.run acts env).results.filter
      BackupAutomation.isActionRecord = (acts.zip env.actionEnvs).map
        BackupAutomation.recordOf := by
    rw [hbackup, List.filter_append, execute_actions_filter,
      show List.filter BackupAutomation.isActionRecord
        [BackupAutomation.RRecord.final_screenshot] = [] from rfl,
      List.append_nil]
  have hsuccess : (BackupAutomation.run acts env).success = true := by
    rw [BackupAutomation.run]
    simp [h1, h5]
  have hloop : AdvancedAutomation.runLoop (aacts.zip aenv.steps)
      = ((aacts.zip aenv.steps).length, none) := by
    apply runLoop_clean
    intro p hp
    exact g5 p.2 (List.of_mem_zip hp).2
  have hzipb : (acts.zip env.actionEnvs).length = acts.length := by
    rw [List.length_zip, h6, Nat.min_self]
  have hzipa : (aacts.zip aenv.steps).length = aacts.length := by
    rw [List.length_zip, g4, Nat.min_self]
  have hadv : AdvancedAutomation.run_automation aacts aenv
      = { success := true, error := none, executed := aacts.length,
          closeCalls := 1 } := by
    rw [AdvancedAutomation.run_automation, g1]
    simp only [g2, g3, hloop, hzipa]
    rfl
  refine ⟨hfilter, ?_, hsuccess, ?_, ?_⟩
  · rw [hfilter, List.length_map, hzipb]
  · rw [hadv]
  · rw [hadv]

/-- Witness for claim C1: a concrete obstacle-free one-action run in each
engine completes with one per-action record and success. -/
theorem C1_no_obstacle_run_completes_witness :
    (BackupAutomation.run [⟨"click", some "#submit", ""⟩]
        ⟨true, true, none, [none], none, none, true⟩).success = true ∧
    (AdvancedAutomation.run_automation [⟨"click", some "#submit", none⟩]
        ⟨.ok, none, [⟨Except.ok false, none, {}, none⟩], none⟩).executed = 1 :=
  ⟨(C1_no_obstacle_run_completes [⟨"click", some "#submit", ""⟩]
      ⟨true, true, none, [none], none, none, true⟩
      [⟨"click", some "#submit", none⟩]
      ⟨.ok, none, [⟨Except.ok false, none, {}, none⟩], none⟩
      rfl rfl rfl rfl rfl rfl rfl rfl rfl rfl (by decide)).2.2.1,
   (C1_no_obstacle_run_completes [⟨"click", some "#submit", ""⟩]
      ⟨true, true, none, [none], none, none, true⟩
      [⟨"click", some "#submit", none⟩]
      ⟨.ok, none, [⟨Except.ok false, none, {}, none⟩], none⟩
      rfl rfl rfl rfl rfl rfl rfl rfl rfl rfl (by decide)).2.2.2.1⟩

/-- Witness for claim C5 as amended: the recaptcha kind, whose pattern
entry matches the recognised text, is reported by the text scan. -/
theorem C5_all_detected_kinds_reported_witness :
    "recaptcha" ∈ (CaptchaDetector.detect_text_on CaptchaDetector.simulated_text).types :=
  ((C5_all_detected_kinds_reported CaptchaDetector.simulated_text
      ⟨false, false, false, false, false⟩).2 "recaptcha").mpr
    ⟨[.lit "recaptcha".data, .lit "g-recaptcha".data,
      .lit ("i".data ++ [apos] ++ "m not a robot".data), .lit "recaptcha".data],
     by decide, by decide⟩

/-- Witness for claim C7 at a concrete page on which the first probed
selector matches: the issued operation is read-only. -/
theorem C7_detection_read_only_idempotent_witness :
    Detect.isReadOnly (Detect.PageOp.query_selector ".g-recaptcha") = true :=
  (C7_detection_read_only_idempotent
      ⟨fun s => s == ".g-recaptcha", fun _ => "", []⟩).1
    (Detect.PageOp.query_selector ".g-recaptcha") (by decide)
